import Mathlib

/-!
Shallow embedding of the `adspower_automation` package (models/profile.py,
core/exceptions.py, services/profile_service.py) and proofs about the claims
of the specification.  Python machine behaviour is modelled explicitly:
optional values are `Option`, truthiness of optionals is spelled out, and a
function that can raise returns `Except PyError`.
-/

namespace AdsAuto

/-- The single-quote character, used to build the Python error message strings. -/
def sq : String := String.singleton (Char.ofNat 39)

/-- Python truthiness of an `Optional[str]`: `None` and the empty string are falsy. -/
def optStrTruthy : Option String → Bool
  | Option.none => false
  | Option.some s => !(s == "")

/-- Python truthiness of an `Optional[int]`: `None` and `0` are falsy. -/
def optIntTruthy : Option Int → Bool
  | Option.none => false
  | Option.some n => !(n == 0)

/-- models/profile.py `ProxyType` -/
inductive ProxyType where
  | http
  | https
  | socks5
  | none
deriving DecidableEq

/-- models/profile.py `ProxySettings` dataclass (all fields default to empty). -/
structure ProxySettings where
  proxy_type : ProxyType := ProxyType.none
  host : Option String := Option.none
  port : Option Int := Option.none
  username : Option String := Option.none
  password : Option String := Option.none
deriving DecidableEq

/-- models/profile.py `ProxySettings.is_valid`: true when `proxy_type` is NONE,
otherwise `bool(self.host and self.port)` under Python truthiness. -/
def ProxySettings.is_valid (p : ProxySettings) : Bool :=
  if p.proxy_type = ProxyType.none then true
  else optStrTruthy p.host && optIntTruthy p.port

/-- models/profile.py `BrowserSettings` dataclass. -/
structure BrowserSettings where
  user_agent : Option String := Option.none
  resolution : String := "1920x1080"
  timezone : Option String := Option.none
  language : String := "en-US"
  canvas_protection : Bool := true
  webgl_protection : Bool := true
  webrtc_protection : Bool := true
  font_protection : Bool := true
deriving DecidableEq

/-- models/profile.py `ProfileStatus` -/
inductive ProfileStatus where
  | active
  | inactive
  | creating
  | error
deriving DecidableEq

/-- models/profile.py `PlatformType` -/
inductive PlatformType where
  | facebook
  | google
  | twitter
  | instagram
  | tiktok
  | general
deriving DecidableEq

/-- models/profile.py `ProfileConfig` (pydantic model); the datetime metadata
fields `created_at` / `updated_at` and the `cookies` dict carry no logic used
by any claim and are omitted. -/
structure ProfileConfig where
  name : String
  platform : PlatformType := PlatformType.general
  group_name : Option String := Option.none
  notes : Option String := Option.none
  browser_settings : BrowserSettings := {}
  proxy_settings : ProxySettings := {}
  status : ProfileStatus := ProfileStatus.creating
  profile_id : Option String := Option.none
  startup_url : Option String := Option.none
  extensions : List String := []
deriving DecidableEq

/-- drop leading characters satisfying `p` (helper for Python `str.strip`). -/
def dropWhileChar (p : Char → Bool) : List Char → List Char
  | [] => []
  | c :: cs => if p c then dropWhileChar p cs else c :: cs

/-- Python `str.strip()` on the character list: whitespace removed from both ends. -/
def stripChars (l : List Char) : List Char :=
  ((dropWhileChar Char.isWhitespace ((dropWhileChar Char.isWhitespace l).reverse)).reverse)

/-- Python `str.strip()`. -/
def pyStrip (s : String) : String := String.mk (stripChars s.data)

/-- value of a decimal digit character. -/
def digitVal (c : Char) : Option Nat :=
  if c.isDigit then Option.some (c.toNat - 48) else Option.none

/-- accumulate a decimal number from a digit run; fails on a non-digit. -/
def digitsToNat : Nat → List Char → Option Nat
  | acc, [] => Option.some acc
  | acc, c :: cs =>
      match digitVal c with
      | Option.none => Option.none
      | Option.some d => digitsToNat (acc * 10 + d) cs

/-- Python `int(s)` on a stripped character list: optional sign then a
non-empty digit run (digit-group underscores are not modelled). -/
def pyIntOfChars : List Char → Option Int
  | [] => Option.none
  | c :: cs =>
      if c = '-' then
        match cs with
        | [] => Option.none
        | _ => (digitsToNat 0 cs).map (fun n => -(Int.ofNat n))
      else if c = '+' then
        match cs with
        | [] => Option.none
        | _ => (digitsToNat 0 cs).map Int.ofNat
      else (digitsToNat 0 (c :: cs)).map Int.ofNat

/-- Python `int(s)`: surrounding whitespace allowed. -/
def pyInt? (s : String) : Option Int := pyIntOfChars (stripChars s.data)

/-- Python `str.split(sep)` helper over character lists. -/
def splitOnCharAux (sep : Char) : List Char → List Char → List (List Char)
  | [], acc => [acc.reverse]
  | c :: cs, acc =>
      if c = sep then acc.reverse :: splitOnCharAux sep cs []
      else splitOnCharAux sep cs (c :: acc)

/-- Python `s.split(sep)` for a one-character separator. -/
def pySplitChar (sep : Char) (s : String) : List String :=
  (splitOnCharAux sep s.data []).map String.mk

/-- models/profile.py `ProfileConfig.validate_browser_resolution`: an error if
the resolution string has no `x`, or does not split on `x` into exactly two
int-parseable parts. -/
def validateResolution (r : String) : Except String Unit :=
  if !(r.data.any (fun c => c == 'x')) then
    Except.error ("Resolution must be in format WIDTHxHEIGHT")
  else
    match pySplitChar 'x' r with
    | [w, h] =>
        if (pyInt? w).isSome && (pyInt? h).isSome then Except.ok ()
        else Except.error ("Invalid resolution format")
    | _ => Except.error ("Invalid resolution format")

/-- models/profile.py `name` field: pydantic length constraints
(`min_length=1`, `max_length=100`) followed by the `name_must_not_be_empty`
validator, which strips the value and rejects whitespace-only names. -/
def validateName (v : String) : Except String String :=
  if v.data.length < 1 then Except.error ("ensure this value has at least 1 characters")
  else if v.data.length > 100 then Except.error ("ensure this value has at most 100 characters")
  else if (stripChars v.data).isEmpty then Except.error ("Profile name cannot be empty")
  else Except.ok (pyStrip v)

/-- models/profile.py `notes` field constraint `max_length=500`. -/
def validateNotes : Option String → Except String Unit
  | Option.none => Except.ok ()
  | Option.some s =>
      if s.length > 500 then Except.error ("ensure this value has at most 500 characters")
      else Except.ok ()

/-- Constructing a `ProfileConfig(name=..., browser_settings=..., proxy_settings=...,
notes=...)`: pydantic runs the field constraints and the two declared validators
(`name`, `browser_settings`).  No validator inspects `proxy_settings`. -/
def mkProfileConfig (name : String) (bs : BrowserSettings) (ps : ProxySettings)
    (notes : Option String) : Except String ProfileConfig :=
  match validateName name with
  | Except.error e => Except.error e
  | Except.ok n =>
    match validateNotes notes with
    | Except.error e => Except.error e
    | Except.ok _ =>
      match validateResolution bs.resolution with
      | Except.error e => Except.error e
      | Except.ok _ =>
          Except.ok { name := n, notes := notes, browser_settings := bs, proxy_settings := ps }

/-- whether an `Except` computation finished without raising. -/
def exceptOk {ε α : Type} : Except ε α → Bool
  | Except.ok _ => true
  | Except.error _ => false

/-- C1 counterexample: a `ProfileConfig` whose proxy settings have type http and
no host/port constructs successfully (validation passes), even though
`ProxySettings.is_valid` is false for those settings.  The claim that
construction fails for such a config is refuted. -/
theorem C1_counterexample :
    exceptOk (mkProfileConfig ("test") {} { proxy_type := ProxyType.http } Option.none) = true ∧
    ProxySettings.is_valid { proxy_type := ProxyType.http } = false := by
  constructor
  · decide
  · rfl

/-- C1 (amended): `ProxySettings.is_valid` is true iff the proxy type is none or
both host and port are present (truthy); but `ProfileConfig` construction never
consults the proxy settings, so it succeeds or fails identically whether the
proxy settings are the given ones or the all-default ones. -/
theorem C1_amended (p : ProxySettings) (name : String) (bs : BrowserSettings)
    (notes : Option String) :
    (ProxySettings.is_valid p = true ↔
      (p.proxy_type = ProxyType.none ∨ (optStrTruthy p.host = true ∧ optIntTruthy p.port = true))) ∧
    exceptOk (mkProfileConfig name bs p notes) = exceptOk (mkProfileConfig name bs {} notes) := by
  constructor
  · unfold ProxySettings.is_valid
    by_cases h : p.proxy_type = ProxyType.none
    · simp [h]
    · simp [h, Bool.and_eq_true]
  · unfold mkProfileConfig
    cases h1 : validateName name with
    | error e => rfl
    | ok n =>
      cases h2 : validateNotes notes with
      | error e => rfl
      | ok u =>
        cases h3 : validateResolution bs.resolution with
        | error e => rfl
        | ok u2 => rfl

/-- C1 witness: the amended statement evaluated at a concrete invalid-proxy input. -/
theorem C1_amended_witness :
    (ProxySettings.is_valid { proxy_type := ProxyType.http } = true ↔
      (ProxyType.http = ProxyType.none ∨
        (optStrTruthy Option.none = true ∧ optIntTruthy Option.none = true))) ∧
    exceptOk (mkProfileConfig ("test") {} { proxy_type := ProxyType.http } Option.none) =
      exceptOk (mkProfileConfig ("test") {} {} Option.none) :=
  C1_amended { proxy_type := ProxyType.http } ("test") {} Option.none

/-- core/exceptions.py: the exception values the modelled code can raise.
`typeError` stands for Python built-in `TypeError`. -/
inductive PyError where
  | adsPowerError (message : String)
  | strategyNotAvailable (strategy_name : String) (reason : String)
  | retryExhausted (operation : String) (attempts : Nat) (last_error : Option PyError)
  | typeError (message : String)
  | other (message : String)

/-- `str(e)` for the modelled exceptions, following the message construction in
core/exceptions.py (`AdsPowerAutomationError.__init__` stores the message and
passes it to `Exception`). -/
def PyError.str : PyError → String
  | PyError.adsPowerError m => m
  | PyError.strategyNotAvailable n r =>
      "Strategy " ++ sq ++ n ++ sq ++ " is not available: " ++ r
  | PyError.retryExhausted op n Option.none =>
      "Operation " ++ sq ++ op ++ sq ++ " failed after " ++ toString n ++ " retry attempts"
  | PyError.retryExhausted op n (Option.some e) =>
      "Operation " ++ sq ++ op ++ sq ++ " failed after " ++ toString n ++ " retry attempts" ++
        ". Last error: " ++ PyError.str e
  | PyError.typeError m => m
  | PyError.other m => m

/-- models/profile.py `ProfileResponse` dataclass (the `data` dict is modelled
as an association list; every modelled call site leaves it at its default None). -/
structure ProfileResponse where
  success : Bool
  profile_id : Option String := Option.none
  message : Option String := Option.none
  data : Option (List (String × String)) := Option.none
  error : Option String := Option.none
deriving DecidableEq

/-- models/profile.py `ProfileResponse.success_response` (default `data=None`). -/
def ProfileResponse.success_response (profile_id : String) (message : String) : ProfileResponse :=
  { success := true, profile_id := Option.some profile_id, message := Option.some message }

/-- models/profile.py `ProfileResponse.error_response` (default `data=None`). -/
def ProfileResponse.error_response (error : String) : ProfileResponse :=
  { success := false, error := Option.some error }

/-- Python `result.error or "Unknown error"`: None and the empty string fall
back to the literal. -/
def orUnknown : Option String → String
  | Option.none => "Unknown error"
  | Option.some s => if s = "" then "Unknown error" else s

/-- Python f-string rendering of an `Optional[str]` (None prints as "None"). -/
def pyStrOpt : Option String → String
  | Option.none => "None"
  | Option.some s => s

/-- Observable calls made by the service while one operation runs: screenshot
requests (by filename), calls into the active backend operation (by attempt
number), the inter-retry sleep, strategy cleanup/initialisation calls (by
backend id), the convenience-operation calls, and the fixed settle/pause sleeps. -/
inductive Event where
  | screenshot (filename : String)
  | backendCall (attempt : Nat)
  | sleepRetry
  | cleanupCall (backend : Nat)
  | initCall (backend : Nat)
  | createCall (name : String)
  | openCall (profile_id : String)
  | deleteCall (profile_id : String)
  | settleSleep
  | pauseSleep
deriving DecidableEq

/-- whether an event is a screenshot request. -/
def Event.isScreenshot : Event → Bool
  | Event.screenshot _ => true
  | _ => false

/-- whether an event is a backend operation call. -/
def Event.isBackendCall : Event → Bool
  | Event.backendCall _ => true
  | _ => false

/-- whether an event is the inter-retry sleep. -/
def Event.isSleepRetry : Event → Bool
  | Event.sleepRetry => true
  | _ => false

/-- whether an event is a cleanup call. -/
def Event.isCleanup : Event → Bool
  | Event.cleanupCall _ => true
  | _ => false

/-- whether an event is a profile deletion call. -/
def Event.isDelete : Event → Bool
  | Event.deleteCall _ => true
  | _ => false

/-- number of backend operation calls in a trace. -/
def countBackend (evs : List Event) : Nat := evs.countP (fun e => Event.isBackendCall e)

/-- number of inter-retry sleeps in a trace. -/
def countSleeps (evs : List Event) : Nat := evs.countP (fun e => Event.isSleepRetry e)

/-- number of screenshot requests in a trace. -/
def countShots (evs : List Event) : Nat := evs.countP (fun e => Event.isScreenshot e)

/-- Outcome of one call of the underlying backend profile operation: it either
returned a `ProfileResponse` or raised. -/
inductive AttemptOutcome where
  | result (r : ProfileResponse)
  | raised (e : PyError)

/-- an attempt outcome that the retry loop treats as a failure. -/
def AttemptOutcome.isFailure : AttemptOutcome → Bool
  | AttemptOutcome.result r => !r.success
  | AttemptOutcome.raised _ => true

/-- the `last_error` value the retry loop records for a failed attempt:
`AdsPowerAutomationError(result.error or "Unknown error")` for a failure
response, the exception itself for a raise. -/
def AttemptOutcome.asError : AttemptOutcome → PyError
  | AttemptOutcome.result r => PyError.adsPowerError (orUnknown r.error)
  | AttemptOutcome.raised e => e

/-- Scripted behaviour of the active backend during one retry-wrapped
operation: the outcome of `take_screenshot` before attempt `i`, of the
success screenshot, of the (swallowed) error-path screenshot, and of the
underlying profile operation at attempt `i`. -/
structure BackendBehavior where
  beforeShot : Nat → Except PyError String
  successShot : Except PyError String
  errorShot : Nat → Except PyError String
  opCall : Nat → AttemptOutcome

/-- The screenshot filenames a retry wrapper uses (prepared per operation). -/
structure ShotNames where
  before : Nat → String
  success : String
  onError : Nat → String

/-- services/profile_service.py: the retry loop shared by
`create_profile_with_retry` and `open_profile_with_retry` (the variants that
take screenshots).  `attempt` is the 1-based attempt number, `remaining` the
number of loop iterations left, `total` the configured `retry_attempts`.
Each iteration: take the before screenshot (a raise is caught by the attempt's
exception handler, which takes a best-effort error screenshot whose own result
is swallowed); call the backend operation; on a success response take the
success screenshot (a raise there is likewise caught) and return the response;
otherwise record the attempt's error and, when this was not the final attempt,
sleep the retry delay; when the loop ends, raise `RetryExhaustedError`. -/
def retryGoShots (env : BackendBehavior) (names : ShotNames) (opname : String) (total : Nat) :
    Nat → Nat → Option PyError → Except PyError ProfileResponse × List Event
  | _, 0, last_error => (Except.error (PyError.retryExhausted opname total last_error), [])
  | attempt, remaining + 1, _ =>
    match env.beforeShot attempt with
    | Except.error e =>
        let evs := [Event.screenshot (names.before attempt), Event.screenshot (names.onError attempt)]
        let evs := if attempt < total then evs ++ [Event.sleepRetry] else evs
        let rest := retryGoShots env names opname total (attempt + 1) remaining (Option.some e)
        (rest.1, evs ++ rest.2)
    | Except.ok _ =>
        match env.opCall attempt with
        | AttemptOutcome.result r =>
          if r.success then
            match env.successShot with
            | Except.ok _ =>
                (Except.ok r,
                 [Event.screenshot (names.before attempt), Event.backendCall attempt,
                  Event.screenshot names.success])
            | Except.error e =>
                let evs := [Event.screenshot (names.before attempt), Event.backendCall attempt,
                  Event.screenshot names.success, Event.screenshot (names.onError attempt)]
                let evs := if attempt < total then evs ++ [Event.sleepRetry] else evs
                let rest := retryGoShots env names opname total (attempt + 1) remaining (Option.some e)
                (rest.1, evs ++ rest.2)
          else
            let evs := [Event.screenshot (names.before attempt), Event.backendCall attempt]
            let evs := if attempt < total then evs ++ [Event.sleepRetry] else evs
            let rest := retryGoShots env names opname total (attempt + 1) remaining
              (Option.some (PyError.adsPowerError (orUnknown r.error)))
            (rest.1, evs ++ rest.2)
        | AttemptOutcome.raised e =>
            let evs := [Event.screenshot (names.before attempt), Event.backendCall attempt,
              Event.screenshot (names.onError attempt)]
            let evs := if attempt < total then evs ++ [Event.sleepRetry] else evs
            let rest := retryGoShots env names opname total (attempt + 1) remaining (Option.some e)
            (rest.1, evs ++ rest.2)

/-- services/profile_service.py: the retry loop of `close_profile_with_retry`,
which takes no screenshots at all; otherwise identical to the other two. -/
def retryGoPlain (env : BackendBehavior) (opname : String) (total : Nat) :
    Nat → Nat → Option PyError → Except PyError ProfileResponse × List Event
  | _, 0, last_error => (Except.error (PyError.retryExhausted opname total last_error), [])
  | attempt, remaining + 1, _ =>
    match env.opCall attempt with
    | AttemptOutcome.result r =>
      if r.success then (Except.ok r, [Event.backendCall attempt])
      else
        let evs := [Event.backendCall attempt]
        let evs := if attempt < total then evs ++ [Event.sleepRetry] else evs
        let rest := retryGoPlain env opname total (attempt + 1) remaining
          (Option.some (PyError.adsPowerError (orUnknown r.error)))
        (rest.1, evs ++ rest.2)
    | AttemptOutcome.raised e =>
        let evs := [Event.backendCall attempt]
        let evs := if attempt < total then evs ++ [Event.sleepRetry] else evs
        let rest := retryGoPlain env opname total (attempt + 1) remaining (Option.some e)
        (rest.1, evs ++ rest.2)

/-- config/settings.py `AdsPowerConfig`: the field the retry wrappers read
(`retry_delay` only determines the length of each recorded sleep, not the
control flow, and is left abstract). -/
structure RetryConfig where
  retry_attempts : Nat
deriving DecidableEq

/-- screenshot filenames used by `create_profile_with_retry`. -/
def createShotNames (name : String) : ShotNames :=
  { before := fun attempt => "before_create_" ++ name ++ "_" ++ toString attempt ++ ".png",
    success := "after_create_" ++ name ++ "_success.png",
    onError := fun attempt => "error_create_" ++ name ++ "_" ++ toString attempt ++ ".png" }

/-- screenshot filenames used by `open_profile_with_retry`. -/
def openShotNames (profile_id : String) : ShotNames :=
  { before := fun attempt => "before_open_" ++ profile_id ++ "_" ++ toString attempt ++ ".png",
    success := "after_open_" ++ profile_id ++ "_success.png",
    onError := fun attempt => "error_open_" ++ profile_id ++ "_" ++ toString attempt ++ ".png" }

/-- services/profile_service.py `create_profile_with_retry`; `active` models
`self.current_strategy is not None`. -/
def create_profile_with_retry (cfg : RetryConfig) (active : Bool) (env : BackendBehavior)
    (config : ProfileConfig) : Except PyError ProfileResponse × List Event :=
  if !active then
    (Except.ok (ProfileResponse.error_response ("No automation strategy available")), [])
  else
    retryGoShots env (createShotNames config.name) ("create_profile_" ++ config.name)
      cfg.retry_attempts 1 cfg.retry_attempts Option.none

/-- services/profile_service.py `open_profile_with_retry`. -/
def open_profile_with_retry (cfg : RetryConfig) (active : Bool) (env : BackendBehavior)
    (profile_id : String) : Except PyError ProfileResponse × List Event :=
  if !active then
    (Except.ok (ProfileResponse.error_response ("No automation strategy available")), [])
  else
    retryGoShots env (openShotNames profile_id) ("open_profile_" ++ profile_id)
      cfg.retry_attempts 1 cfg.retry_attempts Option.none

/-- services/profile_service.py `close_profile_with_retry` (no screenshots). -/
def close_profile_with_retry (cfg : RetryConfig) (active : Bool) (env : BackendBehavior)
    (profile_id : String) : Except PyError ProfileResponse × List Event :=
  if !active then
    (Except.ok (ProfileResponse.error_response ("No automation strategy available")), [])
  else
    retryGoPlain env ("close_profile_" ++ profile_id)
      cfg.retry_attempts 1 cfg.retry_attempts Option.none

/-- The `last_error` value held by the retry loop after it has run `remaining`
further failing attempts starting at attempt number `attempt`, having entered
with accumulator `le`. -/
def lastErrAux (env : BackendBehavior) (le : Option PyError) (attempt : Nat) : Nat → Option PyError
  | 0 => le
  | r + 1 => Option.some ((env.opCall (attempt + r)).asError)

theorem lastErrAux_succ (env : BackendBehavior) (le : Option PyError) (attempt rem : Nat) :
    lastErrAux env le attempt (rem + 1) =
      lastErrAux env (Option.some ((env.opCall attempt).asError)) (attempt + 1) rem := by
  cases rem with
  | zero => rfl
  | succ r =>
      show Option.some ((env.opCall (attempt + (r + 1))).asError) =
        Option.some ((env.opCall (attempt + 1 + r)).asError)
      have h : attempt + (r + 1) = attempt + 1 + r := by omega
      rw [h]

theorem lastErrAux_full (env : BackendBehavior) (total : Nat) (hpos : 1 ≤ total) :
    lastErrAux env Option.none 1 total = Option.some ((env.opCall total).asError) := by
  cases total with
  | zero => omega
  | succ t =>
      show Option.some ((env.opCall (1 + t)).asError) = Option.some ((env.opCall (t + 1)).asError)
      have h : 1 + t = t + 1 := by omega
      rw [h]

theorem retryGoShots_all_fail (env : BackendBehavior) (names : ShotNames) (opname : String)
    (total : Nat) (hbs : ∀ i, exceptOk (env.beforeShot i) = true) :
    ∀ remaining attempt le,
      (∀ i, attempt ≤ i → i < attempt + remaining → (env.opCall i).isFailure = true) →
      (retryGoShots env names opname total attempt remaining le).1 =
        Except.error (PyError.retryExhausted opname total (lastErrAux env le attempt remaining)) ∧
      countBackend (retryGoShots env names opname total attempt remaining le).2 = remaining := by
  intro remaining
  induction remaining with
  | zero =>
      intro attempt le _
      exact ⟨rfl, rfl⟩
  | succ rem ih =>
      intro attempt le hfail
      have hb : exceptOk (env.beforeShot attempt) = true := hbs attempt
      cases hbe : env.beforeShot attempt with
      | error e => rw [hbe] at hb; simp [exceptOk] at hb
      | ok s =>
        have hfa : (env.opCall attempt).isFailure = true :=
          hfail attempt (Nat.le_refl _) (by omega)
        have hrest := ih (attempt + 1) (Option.some ((env.opCall attempt).asError))
          (fun i h1 h2 => hfail i (by omega) (by omega))
        rw [lastErrAux_succ env le attempt rem]
        obtain ⟨hrest1, hrest2⟩ := hrest
        cases hoc : env.opCall attempt with
        | result r =>
            rw [hoc] at hfa
            have hr : r.success = false := by
              simpa [AttemptOutcome.isFailure] using hfa
            rw [hoc] at hrest1 hrest2
            constructor
            · simp only [retryGoShots, hbe, hoc, hr]
              simpa [AttemptOutcome.asError] using hrest1
            · simp only [retryGoShots, hbe, hoc, hr]
              simp only [countBackend, AttemptOutcome.asError] at hrest2 ⊢
              by_cases hlt : attempt < total <;>
                simp [hlt, List.countP_append, List.countP_cons, Event.isBackendCall]
                  at hrest2 ⊢ <;> omega
        | raised e2 =>
            rw [hoc] at hrest1 hrest2
            constructor
            · simp only [retryGoShots, hbe, hoc]
              simpa [AttemptOutcome.asError] using hrest1
            · simp only [retryGoShots, hbe, hoc]
              simp only [countBackend, AttemptOutcome.asError] at hrest2 ⊢
              by_cases hlt : attempt < total <;>
                simp [hlt, List.countP_append, List.countP_cons, Event.isBackendCall]
                  at hrest2 ⊢ <;> omega

theorem retryGoPlain_all_fail (env : BackendBehavior) (opname : String) (total : Nat) :
    ∀ remaining attempt le,
      (∀ i, attempt ≤ i → i < attempt + remaining → (env.opCall i).isFailure = true) →
      (retryGoPlain env opname total attempt remaining le).1 =
        Except.error (PyError.retryExhausted opname total (lastErrAux env le attempt remaining)) ∧
      countBackend (retryGoPlain env opname total attempt remaining le).2 = remaining := by
  intro remaining
  induction remaining with
  | zero =>
      intro attempt le _
      exact ⟨rfl, rfl⟩
  | succ rem ih =>
      intro attempt le hfail
      have hfa : (env.opCall attempt).isFailure = true :=
        hfail attempt (Nat.le_refl _) (by omega)
      obtain ⟨hrest1, hrest2⟩ := ih (attempt + 1) (Option.some ((env.opCall attempt).asError))
        (fun i h1 h2 => hfail i (by omega) (by omega))
      rw [lastErrAux_succ env le attempt rem]
      cases hoc : env.opCall attempt with
      | result r =>
          rw [hoc] at hfa
          have hr : r.success = false := by
            simpa [AttemptOutcome.isFailure] using hfa
          rw [hoc] at hrest1 hrest2
          constructor
          · simp only [retryGoPlain, hoc, hr]
            simpa [AttemptOutcome.asError] using hrest1
          · simp only [retryGoPlain, hoc, hr]
            simp only [countBackend, AttemptOutcome.asError] at hrest2 ⊢
            by_cases hlt : attempt < total <;>
              simp [hlt, List.countP_append, List.countP_cons, Event.isBackendCall]
                at hrest2 ⊢ <;> omega
      | raised e2 =>
          rw [hoc] at hrest1 hrest2
          constructor
          · simp only [retryGoPlain, hoc]
            simpa [AttemptOutcome.asError] using hrest1
          · simp only [retryGoPlain, hoc]
            simp only [countBackend, AttemptOutcome.asError] at hrest2 ⊢
            by_cases hlt : attempt < total <;>
              simp [hlt, List.countP_append, List.countP_cons, Event.isBackendCall]
                at hrest2 ⊢ <;> omega

/-- C2: if every backend attempt fails (failure response or raise) and the
diagnostic screenshots themselves succeed, then each retry wrapper performs
exactly `retry_attempts` backend attempts and raises `RetryExhaustedError`
carrying the operation name, the configured attempt count, and the error
observed on the final attempt. -/
theorem C2_retry_exhausted (cfg : RetryConfig) (env : BackendBehavior) (config : ProfileConfig)
    (profile_id : String)
    (hpos : 1 ≤ cfg.retry_attempts)
    (hbs : ∀ i, exceptOk (env.beforeShot i) = true)
    (hfail : ∀ i, 1 ≤ i → i ≤ cfg.retry_attempts → (env.opCall i).isFailure = true) :
    ((create_profile_with_retry cfg true env config).1 =
        Except.error (PyError.retryExhausted ("create_profile_" ++ config.name)
          cfg.retry_attempts (Option.some ((env.opCall cfg.retry_attempts).asError))) ∧
      countBackend (create_profile_with_retry cfg true env config).2 = cfg.retry_attempts) ∧
    ((open_profile_with_retry cfg true env profile_id).1 =
        Except.error (PyError.retryExhausted ("open_profile_" ++ profile_id)
          cfg.retry_attempts (Option.some ((env.opCall cfg.retry_attempts).asError))) ∧
      countBackend (open_profile_with_retry cfg true env profile_id).2 = cfg.retry_attempts) ∧
    ((close_profile_with_retry cfg true env profile_id).1 =
        Except.error (PyError.retryExhausted ("close_profile_" ++ profile_id)
          cfg.retry_attempts (Option.some ((env.opCall cfg.retry_attempts).asError))) ∧
      countBackend (close_profile_with_retry cfg true env profile_id).2 = cfg.retry_attempts) := by
  have hfail2 : ∀ i, 1 ≤ i → i < 1 + cfg.retry_attempts → (env.opCall i).isFailure = true :=
    fun i h1 h2 => hfail i h1 (by omega)
  have h1 := retryGoShots_all_fail env (createShotNames config.name)
    ("create_profile_" ++ config.name) cfg.retry_attempts hbs cfg.retry_attempts 1
    Option.none hfail2
  have h2 := retryGoShots_all_fail env (openShotNames profile_id)
    ("open_profile_" ++ profile_id) cfg.retry_attempts hbs cfg.retry_attempts 1
    Option.none hfail2
  have h3 := retryGoPlain_all_fail env ("close_profile_" ++ profile_id)
    cfg.retry_attempts cfg.retry_attempts 1 Option.none hfail2
  rw [lastErrAux_full env cfg.retry_attempts hpos] at h1 h2 h3
  constructor
  · simpa [create_profile_with_retry] using h1
  constructor
  · simpa [open_profile_with_retry] using h2
  · simpa [close_profile_with_retry] using h3

/-- a retry configuration with two attempts, used by the concrete witnesses. -/
def cfgEx : RetryConfig := { retry_attempts := 2 }

/-- a concrete valid profile configuration used by the witnesses. -/
def configEx : ProfileConfig := { name := "test" }

/-- a backend whose profile operation always raises and whose screenshots work. -/
def envFail : BackendBehavior :=
  { beforeShot := fun _ => Except.ok ("shot.png"),
    successShot := Except.ok ("shot.png"),
    errorShot := fun _ => Except.ok ("shot.png"),
    opCall := fun _ => AttemptOutcome.raised (PyError.other ("boom")) }

/-- C2 witness: the hypotheses and (one conjunct of) the conclusion of
`C2_retry_exhausted` hold at a concrete always-failing backend. -/
theorem C2_retry_exhausted_witness :
    (1 ≤ cfgEx.retry_attempts) ∧ (∀ i, exceptOk (envFail.beforeShot i) = true) ∧
    (∀ i, 1 ≤ i → i ≤ cfgEx.retry_attempts → (envFail.opCall i).isFailure = true) ∧
    ((create_profile_with_retry cfgEx true envFail configEx).1 =
        Except.error (PyError.retryExhausted ("create_profile_" ++ configEx.name)
          cfgEx.retry_attempts (Option.some ((envFail.opCall cfgEx.retry_attempts).asError))) ∧
      countBackend (create_profile_with_retry cfgEx true envFail configEx).2 =
        cfgEx.retry_attempts) :=
  ⟨by decide, fun i => rfl, fun i h1 h2 => rfl,
    (C2_retry_exhausted cfgEx envFail configEx ("p1") (by decide) (fun i => rfl)
      (fun i h1 h2 => rfl)).1⟩

theorem retryGoShots_succ (env : BackendBehavior) (names : ShotNames) (opname : String)
    (total : Nat) (hbs : ∀ i, exceptOk (env.beforeShot i) = true)
    (hss : exceptOk env.successShot = true) :
    ∀ k attempt remaining le r,
      (∀ i, attempt ≤ i → i < attempt + k → (env.opCall i).isFailure = true) →
      env.opCall (attempt + k) = AttemptOutcome.result r → r.success = true →
      k < remaining → attempt + k ≤ total →
      (retryGoShots env names opname total attempt remaining le).1 = Except.ok r ∧
      countBackend (retryGoShots env names opname total attempt remaining le).2 = k + 1 ∧
      countSleeps (retryGoShots env names opname total attempt remaining le).2 = k := by
  intro k
  induction k with
  | zero =>
      intro attempt remaining le r _ hsucc hr hrem _
      rw [Nat.add_zero] at hsucc
      cases remaining with
      | zero => omega
      | succ rem =>
          have hb : exceptOk (env.beforeShot attempt) = true := hbs attempt
          cases hbe : env.beforeShot attempt with
          | error e => rw [hbe] at hb; simp [exceptOk] at hb
          | ok s =>
              cases hse : env.successShot with
              | error e => rw [hse] at hss; simp [exceptOk] at hss
              | ok s2 =>
                  refine ⟨?_, ?_, ?_⟩ <;>
                    simp [retryGoShots, hbe, hse, hsucc, hr, countBackend, countSleeps,
                      List.countP_cons, Event.isBackendCall, Event.isSleepRetry,
                      Event.isScreenshot]
  | succ kk ih =>
      intro attempt remaining le r hfailk hsucc hr hrem htot
      cases remaining with
      | zero => omega
      | succ rem =>
          have hb : exceptOk (env.beforeShot attempt) = true := hbs attempt
          have hfa : (env.opCall attempt).isFailure = true :=
            hfailk attempt (Nat.le_refl _) (by omega)
          have hshift : attempt + 1 + kk = attempt + (kk + 1) := by omega
          have hsucc2 : env.opCall (attempt + 1 + kk) = AttemptOutcome.result r := by
            rw [hshift]; exact hsucc
          have hfail3 : ∀ i, attempt + 1 ≤ i → i < attempt + 1 + kk →
              (env.opCall i).isFailure = true :=
            fun i h1 h2 => hfailk i (by omega) (by omega)
          have hlt : attempt < total := by omega
          cases hbe : env.beforeShot attempt with
          | error e => rw [hbe] at hb; simp [exceptOk] at hb
          | ok s =>
              cases hoc : env.opCall attempt with
              | result rf =>
                  rw [hoc] at hfa
                  have hrf : rf.success = false := by
                    simpa [AttemptOutcome.isFailure] using hfa
                  obtain ⟨ha, hbk, hsl⟩ := ih (attempt + 1) rem
                    (Option.some (PyError.adsPowerError (orUnknown rf.error))) r
                    hfail3 hsucc2 hr (by omega) (by omega)
                  refine ⟨?_, ?_, ?_⟩ <;>
                    simp only [retryGoShots, hbe, hoc, hrf, countBackend, countSleeps]
                      at ha hbk hsl ⊢ <;>
                    simp [hlt, List.countP_append, List.countP_cons, Event.isBackendCall,
                      Event.isSleepRetry, ha] at hbk hsl ⊢ <;>
                    omega
              | raised e2 =>
                  obtain ⟨ha, hbk, hsl⟩ := ih (attempt + 1) rem (Option.some e2) r
                    hfail3 hsucc2 hr (by omega) (by omega)
                  refine ⟨?_, ?_, ?_⟩ <;>
                    simp only [retryGoShots, hbe, hoc, countBackend, countSleeps]
                      at ha hbk hsl ⊢ <;>
                    simp [hlt, List.countP_append, List.countP_cons, Event.isBackendCall,
                      Event.isSleepRetry, ha] at hbk hsl ⊢ <;>
                    omega

theorem retryGoPlain_succ (env : BackendBehavior) (opname : String) (total : Nat) :
    ∀ k attempt remaining le r,
      (∀ i, attempt ≤ i → i < attempt + k → (env.opCall i).isFailure = true) →
      env.opCall (attempt + k) = AttemptOutcome.result r → r.success = true →
      k < remaining → attempt + k ≤ total →
      (retryGoPlain env opname total attempt remaining le).1 = Except.ok r ∧
      countBackend (retryGoPlain env opname total attempt remaining le).2 = k + 1 ∧
      countSleeps (retryGoPlain env opname total attempt remaining le).2 = k := by
  intro k
  induction k with
  | zero =>
      intro attempt remaining le r _ hsucc hr hrem _
      rw [Nat.add_zero] at hsucc
      cases remaining with
      | zero => omega
      | succ rem =>
          refine ⟨?_, ?_, ?_⟩ <;>
            simp [retryGoPlain, hsucc, hr, countBackend, countSleeps,
              List.countP_cons, Event.isBackendCall, Event.isSleepRetry]
  | succ kk ih =>
      intro attempt remaining le r hfailk hsucc hr hrem htot
      cases remaining with
      | zero => omega
      | succ rem =>
          have hfa : (env.opCall attempt).isFailure = true :=
            hfailk attempt (Nat.le_refl _) (by omega)
          have hshift : attempt + 1 + kk = attempt + (kk + 1) := by omega
          have hsucc2 : env.opCall (attempt + 1 + kk) = AttemptOutcome.result r := by
            rw [hshift]; exact hsucc
          have hfail3 : ∀ i, attempt + 1 ≤ i → i < attempt + 1 + kk →
              (env.opCall i).isFailure = true :=
            fun i h1 h2 => hfailk i (by omega) (by omega)
          have hlt : attempt < total := by omega
          cases hoc : env.opCall attempt with
          | result rf =>
              rw [hoc] at hfa
              have hrf : rf.success = false := by
                simpa [AttemptOutcome.isFailure] using hfa
              obtain ⟨ha, hbk, hsl⟩ := ih (attempt + 1) rem
                (Option.some (PyError.adsPowerError (orUnknown rf.error))) r
                hfail3 hsucc2 hr (by omega) (by omega)
              refine ⟨?_, ?_, ?_⟩ <;>
                simp only [retryGoPlain, hoc, hrf, countBackend, countSleeps]
                  at ha hbk hsl ⊢ <;>
                simp [hlt, List.countP_append, List.countP_cons, Event.isBackendCall,
                  Event.isSleepRetry, ha] at hbk hsl ⊢ <;>
                omega
          | raised e2 =>
              obtain ⟨ha, hbk, hsl⟩ := ih (attempt + 1) rem (Option.some e2) r
                hfail3 hsucc2 hr (by omega) (by omega)
              refine ⟨?_, ?_, ?_⟩ <;>
                simp only [retryGoPlain, hoc, countBackend, countSleeps]
                  at ha hbk hsl ⊢ <;>
                simp [hlt, List.countP_append, List.countP_cons, Event.isBackendCall,
                  Event.isSleepRetry, ha] at hbk hsl ⊢ <;>
                omega

/-- C3: if the backend operation fails on attempts `1..k` and returns a success
response on attempt `k+1`, with `k` strictly below the configured attempt count
and working screenshots, then each retry wrapper returns that success response
unchanged, performs exactly `k+1` backend attempts, and sleeps the inter-attempt
delay exactly `k` times. -/
theorem C3_retry_success (cfg : RetryConfig) (env : BackendBehavior) (config : ProfileConfig)
    (profile_id : String) (k : Nat) (r : ProfileResponse)
    (hk : k < cfg.retry_attempts)
    (hbs : ∀ i, exceptOk (env.beforeShot i) = true)
    (hss : exceptOk env.successShot = true)
    (hfail : ∀ i, 1 ≤ i → i ≤ k → (env.opCall i).isFailure = true)
    (hsucc : env.opCall (k + 1) = AttemptOutcome.result r)
    (hr : r.success = true) :
    ((create_profile_with_retry cfg true env config).1 = Except.ok r ∧
      countBackend (create_profile_with_retry cfg true env config).2 = k + 1 ∧
      countSleeps (create_profile_with_retry cfg true env config).2 = k) ∧
    ((open_profile_with_retry cfg true env profile_id).1 = Except.ok r ∧
      countBackend (open_profile_with_retry cfg true env profile_id).2 = k + 1 ∧
      countSleeps (open_profile_with_retry cfg true env profile_id).2 = k) ∧
    ((close_profile_with_retry cfg true env profile_id).1 = Except.ok r ∧
      countBackend (close_profile_with_retry cfg true env profile_id).2 = k + 1 ∧
      countSleeps (close_profile_with_retry cfg true env profile_id).2 = k) := by
  have hfail2 : ∀ i, 1 ≤ i → i < 1 + k → (env.opCall i).isFailure = true :=
    fun i h1 h2 => hfail i h1 (by omega)
  have hsucc2 : env.opCall (1 + k) = AttemptOutcome.result r := by
    have h : 1 + k = k + 1 := by omega
    rw [h]; exact hsucc
  have h1 := retryGoShots_succ env (createShotNames config.name)
    ("create_profile_" ++ config.name) cfg.retry_attempts hbs hss k 1 cfg.retry_attempts
    Option.none r hfail2 hsucc2 hr hk (by omega)
  have h2 := retryGoShots_succ env (openShotNames profile_id)
    ("open_profile_" ++ profile_id) cfg.retry_attempts hbs hss k 1 cfg.retry_attempts
    Option.none r hfail2 hsucc2 hr hk (by omega)
  have h3 := retryGoPlain_succ env ("close_profile_" ++ profile_id)
    cfg.retry_attempts k 1 cfg.retry_attempts Option.none r hfail2 hsucc2 hr hk (by omega)
  constructor
  · simpa [create_profile_with_retry] using h1
  constructor
  · simpa [open_profile_with_retry] using h2
  · simpa [close_profile_with_retry] using h3

/-- a success response the scripted backends return. -/
def respOk : ProfileResponse := ProfileResponse.success_response ("id1") ("Success")

/-- a backend whose profile operation raises on attempt 1 and succeeds on
attempt 2, with working screenshots. -/
def envFlaky : BackendBehavior :=
  { beforeShot := fun _ => Except.ok ("shot.png"),
    successShot := Except.ok ("shot.png"),
    errorShot := fun _ => Except.ok ("shot.png"),
    opCall := fun i =>
      if i ≤ 1 then AttemptOutcome.raised (PyError.other ("boom"))
      else AttemptOutcome.result respOk }

/-- C3 witness: the hypotheses and (one conjunct of) the conclusion of
`C3_retry_success` hold at a concrete fail-once-then-succeed backend. -/
theorem C3_retry_success_witness :
    (1 < cfgEx.retry_attempts) ∧ (∀ i, exceptOk (envFlaky.beforeShot i) = true) ∧
    (exceptOk envFlaky.successShot = true) ∧
    (∀ i, 1 ≤ i → i ≤ 1 → (envFlaky.opCall i).isFailure = true) ∧
    (envFlaky.opCall 2 = AttemptOutcome.result respOk) ∧ (respOk.success = true) ∧
    ((open_profile_with_retry cfgEx true envFlaky ("p1")).1 = Except.ok respOk ∧
      countBackend (open_profile_with_retry cfgEx true envFlaky ("p1")).2 = 2 ∧
      countSleeps (open_profile_with_retry cfgEx true envFlaky ("p1")).2 = 1) := by
  refine ⟨by decide, fun i => rfl, rfl, ?_, rfl, rfl, ?_⟩
  · intro i h1 h2
    have h : i = 1 := by omega
    rw [h]; rfl
  · exact (C3_retry_success cfgEx envFlaky configEx ("p1") 1 respOk (by decide)
      (fun i => rfl) rfl
      (fun i h1 h2 => by
        have h : i = 1 := by omega
        rw [h]; rfl)
      rfl rfl).2.1

theorem retryGoShots_before_mem (env : BackendBehavior) (names : ShotNames) (opname : String)
    (total : Nat) :
    ∀ remaining attempt le i,
      Event.backendCall i ∈ (retryGoShots env names opname total attempt remaining le).2 →
      Event.screenshot (names.before i) ∈
        (retryGoShots env names opname total attempt remaining le).2 := by
  intro remaining
  induction remaining with
  | zero =>
      intro attempt le i h
      simp [retryGoShots] at h
  | succ rem ih =>
      intro attempt le i h
      cases hbe : env.beforeShot attempt with
      | error e =>
          simp only [retryGoShots, hbe] at h ⊢
          rcases List.mem_append.mp h with h1 | h1
          · by_cases hlt : attempt < total <;> simp [hlt] at h1
          · exact List.mem_append_right _ (ih _ _ _ h1)
      | ok s =>
          cases hoc : env.opCall attempt with
          | result r =>
              cases hrs : r.success with
              | true =>
                  cases hse : env.successShot with
                  | ok s2 =>
                      simp only [retryGoShots, hbe, hoc, hrs, hse] at h ⊢
                      simp at h ⊢
                      simp [h]
                  | error e =>
                      simp only [retryGoShots, hbe, hoc, hrs, hse] at h ⊢
                      rcases List.mem_append.mp h with h1 | h1
                      · refine List.mem_append_left _ ?_
                        by_cases hlt : attempt < total <;>
                          simp [hlt] at h1 ⊢ <;> simp [h1]
                      · exact List.mem_append_right _ (ih _ _ _ h1)
              | false =>
                  simp only [retryGoShots, hbe, hoc, hrs] at h ⊢
                  rcases List.mem_append.mp h with h1 | h1
                  · refine List.mem_append_left _ ?_
                    by_cases hlt : attempt < total <;>
                      simp [hlt] at h1 ⊢ <;> simp [h1]
                  · exact List.mem_append_right _ (ih _ _ _ h1)
          | raised e2 =>
              simp only [retryGoShots, hbe, hoc] at h ⊢
              rcases List.mem_append.mp h with h1 | h1
              · refine List.mem_append_left _ ?_
                by_cases hlt : attempt < total <;>
                  simp [hlt] at h1 ⊢ <;> simp [h1]
              · exact List.mem_append_right _ (ih _ _ _ h1)

theorem retryGoShots_success_mem (env : BackendBehavior) (names : ShotNames) (opname : String)
    (total : Nat) :
    ∀ remaining attempt le r,
      (retryGoShots env names opname total attempt remaining le).1 = Except.ok r →
      Event.screenshot names.success ∈
        (retryGoShots env names opname total attempt remaining le).2 := by
  intro remaining
  induction remaining with
  | zero =>
      intro attempt le r h
      simp [retryGoShots] at h
  | succ rem ih =>
      intro attempt le r h
      cases hbe : env.beforeShot attempt with
      | error e =>
          simp only [retryGoShots, hbe] at h ⊢
          exact List.mem_append_right _ (ih _ _ _ h)
      | ok s =>
          cases hoc : env.opCall attempt with
          | result rr =>
              cases hrs : rr.success with
              | true =>
                  cases hse : env.successShot with
                  | ok s2 =>
                      simp only [retryGoShots, hbe, hoc, hrs, hse] at h ⊢
                      simp
                  | error e =>
                      simp only [retryGoShots, hbe, hoc, hrs, hse] at h ⊢
                      exact List.mem_append_right _ (ih _ _ _ h)
              | false =>
                  simp only [retryGoShots, hbe, hoc, hrs] at h ⊢
                  exact List.mem_append_right _ (ih _ _ _ h)
          | raised e2 =>
              simp only [retryGoShots, hbe, hoc] at h ⊢
              exact List.mem_append_right _ (ih _ _ _ h)

theorem retryGoShots_errorShot_irrelevant (env1 env2 : BackendBehavior) (names : ShotNames)
    (opname : String) (total : Nat)
    (hb : env1.beforeShot = env2.beforeShot) (hs : env1.successShot = env2.successShot)
    (ho : env1.opCall = env2.opCall) :
    ∀ remaining attempt le,
      retryGoShots env1 names opname total attempt remaining le =
        retryGoShots env2 names opname total attempt remaining le := by
  intro remaining
  induction remaining with
  | zero => intro attempt le; rfl
  | succ rem ih =>
      intro attempt le
      simp only [retryGoShots, hb, hs, ho]
      cases hbe : env2.beforeShot attempt with
      | error e => simp only [ih]
      | ok s =>
          cases hoc : env2.opCall attempt with
          | result rr =>
              cases hrs : rr.success with
              | true => cases hse : env2.successShot <;> simp only [ih]
              | false => simp only [hrs, ih]
          | raised e2 => simp only [ih]

theorem retryGoPlain_opCall_only (env1 env2 : BackendBehavior) (opname : String) (total : Nat)
    (ho : env1.opCall = env2.opCall) :
    ∀ remaining attempt le,
      retryGoPlain env1 opname total attempt remaining le =
        retryGoPlain env2 opname total attempt remaining le := by
  intro remaining
  induction remaining with
  | zero => intro attempt le; rfl
  | succ rem ih =>
      intro attempt le
      simp only [retryGoPlain, ho]
      cases hoc : env2.opCall attempt with
      | result rr =>
          cases hrs : rr.success with
          | true => simp [hrs]
          | false => simp [hrs, ih]
      | raised e2 => simp only [ih]

theorem retryGoPlain_no_shots (env : BackendBehavior) (opname : String) (total : Nat) :
    ∀ remaining attempt le,
      countShots (retryGoPlain env opname total attempt remaining le).2 = 0 := by
  intro remaining
  induction remaining with
  | zero => intro attempt le; rfl
  | succ rem ih =>
      intro attempt le
      have hone : List.countP (fun e => Event.isScreenshot e)
          (if attempt < total then [Event.backendCall attempt] ++ [Event.sleepRetry]
           else [Event.backendCall attempt]) = 0 := by
        by_cases hlt : attempt < total <;>
          simp [hlt, List.countP_cons, Event.isScreenshot]
      cases hoc : env.opCall attempt with
      | result rr =>
          cases hrs : rr.success with
          | true =>
              simp [retryGoPlain, hoc, hrs, countShots, List.countP_cons, Event.isScreenshot]
          | false =>
              simp only [retryGoPlain, hoc, hrs, countShots] at ih ⊢
              rw [if_neg Bool.false_ne_true]
              dsimp only
              rw [List.countP_append, hone, ih]
      | raised e2 =>
          simp only [retryGoPlain, hoc, countShots] at ih ⊢
          rw [List.countP_append, hone, ih]

/-- a backend whose profile operation succeeds at once, with working screenshots. -/
def envSucc : BackendBehavior :=
  { beforeShot := fun _ => Except.ok ("shot.png"),
    successShot := Except.ok ("shot.png"),
    errorShot := fun _ => Except.ok ("shot.png"),
    opCall := fun _ => AttemptOutcome.result respOk }

/-- C9 counterexample: a successful run of `close_profile_with_retry` makes one
backend attempt but requests zero screenshots, refuting the claim that all
three retry-wrapped operations take a screenshot before every attempt and
after every success. -/
theorem C9_counterexample :
    countShots (close_profile_with_retry cfgEx true envSucc ("p1")).2 = 0 ∧
    countBackend (close_profile_with_retry cfgEx true envSucc ("p1")).2 = 1 ∧
    (close_profile_with_retry cfgEx true envSucc ("p1")).1 = Except.ok respOk := by
  refine ⟨?_, ?_, ?_⟩ <;> rfl

/-- C9 (amended): the create and open retry wrappers take a screenshot before
every backend attempt and after the successful attempt, and the results of the
error-path screenshots are swallowed (the wrappers' outcome and trace do not
depend on them); the close retry wrapper takes no screenshots at all. -/
theorem C9_amended (cfg : RetryConfig) (env : BackendBehavior)
    (f : Nat → Except PyError String) (config : ProfileConfig) (profile_id : String)
    (active : Bool) (i : Nat) (r : ProfileResponse) :
    (Event.backendCall i ∈ (create_profile_with_retry cfg true env config).2 →
      Event.screenshot ((createShotNames config.name).before i) ∈
        (create_profile_with_retry cfg true env config).2) ∧
    (Event.backendCall i ∈ (open_profile_with_retry cfg true env profile_id).2 →
      Event.screenshot ((openShotNames profile_id).before i) ∈
        (open_profile_with_retry cfg true env profile_id).2) ∧
    ((create_profile_with_retry cfg true env config).1 = Except.ok r →
      Event.screenshot ((createShotNames config.name).success) ∈
        (create_profile_with_retry cfg true env config).2) ∧
    ((open_profile_with_retry cfg true env profile_id).1 = Except.ok r →
      Event.screenshot ((openShotNames profile_id).success) ∈
        (open_profile_with_retry cfg true env profile_id).2) ∧
    (create_profile_with_retry cfg active { env with errorShot := f } config =
      create_profile_with_retry cfg active env config) ∧
    (open_profile_with_retry cfg active { env with errorShot := f } profile_id =
      open_profile_with_retry cfg active env profile_id) ∧
    (close_profile_with_retry cfg active { env with errorShot := f } profile_id =
      close_profile_with_retry cfg active env profile_id) ∧
    countShots (close_profile_with_retry cfg active env profile_id).2 = 0 := by
  have hc : create_profile_with_retry cfg true env config =
      retryGoShots env (createShotNames config.name) ("create_profile_" ++ config.name)
        cfg.retry_attempts 1 cfg.retry_attempts Option.none := rfl
  have ho : open_profile_with_retry cfg true env profile_id =
      retryGoShots env (openShotNames profile_id) ("open_profile_" ++ profile_id)
        cfg.retry_attempts 1 cfg.retry_attempts Option.none := rfl
  refine ⟨?_, ?_, ?_, ?_, ?_, ?_, ?_, ?_⟩
  · intro h
    rw [hc] at h ⊢
    exact retryGoShots_before_mem env (createShotNames config.name) _ _ _ _ _ _ h
  · intro h
    rw [ho] at h ⊢
    exact retryGoShots_before_mem env (openShotNames profile_id) _ _ _ _ _ _ h
  · intro h
    rw [hc] at h ⊢
    exact retryGoShots_success_mem env (createShotNames config.name) _ _ _ _ _ _ h
  · intro h
    rw [ho] at h ⊢
    exact retryGoShots_success_mem env (openShotNames profile_id) _ _ _ _ _ _ h
  · cases active with
    | false => rfl
    | true =>
        exact retryGoShots_errorShot_irrelevant { env with errorShot := f } env
          (createShotNames config.name) _ _ rfl rfl rfl _ _ _
  · cases active with
    | false => rfl
    | true =>
        exact retryGoShots_errorShot_irrelevant { env with errorShot := f } env
          (openShotNames profile_id) _ _ rfl rfl rfl _ _ _
  · cases active with
    | false => rfl
    | true =>
        exact retryGoPlain_opCall_only { env with errorShot := f } env _ _ rfl _ _ _
  · cases active with
    | false => rfl
    | true => exact retryGoPlain_no_shots env _ _ _ _ _

/-- C9 witness: the amended statement applied at a concrete succeeding backend:
the open wrapper's trace contains the success screenshot. -/
theorem C9_amended_witness :
    (open_profile_with_retry cfgEx true envSucc ("p1")).1 = Except.ok respOk ∧
    Event.screenshot ((openShotNames ("p1")).success) ∈
      (open_profile_with_retry cfgEx true envSucc ("p1")).2 :=
  ⟨rfl, (C9_amended cfgEx envSucc (fun _ => Except.ok ("x")) configEx ("p1") true 1
    respOk).2.2.2.1 rfl⟩

/-- core/interfaces.py `AutomationMethod`. -/
inductive AutomationMethod where
  | selenium
  | pyautogui
  | api
  | hybrid
deriving DecidableEq

/-- What a strategy's `initialize()` does when called: returns True, returns
False, or raises. -/
inductive InitBehavior where
  | ok
  | failed
  | raised (e : PyError)

/-- What a strategy's `cleanup()` does when called: returns, or raises. -/
inductive CleanupBehavior where
  | ok
  | raised (e : PyError)

/-- Scripted behaviour of a registered strategy for `switch_strategy`. -/
structure StrategyBehavior where
  initB : InitBehavior
  cleanupB : CleanupBehavior

/-- services/profile_service.py service state touched by `switch_strategy`:
the registry `self.strategies` (a method-keyed insertion-ordered dict,
modelled as an association list of backend ids) and `self.current_strategy`. -/
structure ServiceState where
  registry : List (AutomationMethod × Nat)
  current : Option Nat
deriving DecidableEq

/-- `method in self.strategies` / `self.strategies[method]`. -/
def findStrategy : List (AutomationMethod × Nat) → AutomationMethod → Option Nat
  | [], _ => Option.none
  | (m, b) :: rest, m2 => if m = m2 then Option.some b else findStrategy rest m2

/-- services/profile_service.py `switch_strategy`.  The whole body sits in a
`try` whose `except Exception` returns False, so the caller observes
`Except.ok` of a boolean in every modelled case; the `Except` layer records
that no exception escapes.  An unregistered method raises
`StrategyNotAvailableError` internally, which that handler catches (state
untouched, no cleanup).  Otherwise the current strategy (when set) is cleaned
up first — a raise there is caught, leaving the old strategy current — then
`self.current_strategy` is reassigned and the new strategy initialised; an
initialisation raise is caught and False returned. -/
def switch_strategy (st : ServiceState) (beh : Nat → StrategyBehavior)
    (method : AutomationMethod) : Except PyError Bool × ServiceState × List Event :=
  match findStrategy st.registry method with
  | Option.none => (Except.ok false, st, [])
  | Option.some b =>
    match st.current with
    | Option.some cur =>
      match (beh cur).cleanupB with
      | CleanupBehavior.raised _ => (Except.ok false, st, [Event.cleanupCall cur])
      | CleanupBehavior.ok =>
        let st2 : ServiceState := { st with current := Option.some b }
        match (beh b).initB with
        | InitBehavior.ok => (Except.ok true, st2, [Event.cleanupCall cur, Event.initCall b])
        | InitBehavior.failed => (Except.ok false, st2, [Event.cleanupCall cur, Event.initCall b])
        | InitBehavior.raised _ => (Except.ok false, st2, [Event.cleanupCall cur, Event.initCall b])
    | Option.none =>
      let st2 : ServiceState := { st with current := Option.some b }
      match (beh b).initB with
      | InitBehavior.ok => (Except.ok true, st2, [Event.initCall b])
      | InitBehavior.failed => (Except.ok false, st2, [Event.initCall b])
      | InitBehavior.raised _ => (Except.ok false, st2, [Event.initCall b])

/-- a strategy script where everything succeeds. -/
def behOk : Nat → StrategyBehavior :=
  fun _ => { initB := InitBehavior.ok, cleanupB := CleanupBehavior.ok }

/-- a service state with one registered strategy (pyautogui, backend id 0)
which is also the active one. -/
def stEx : ServiceState :=
  { registry := [(AutomationMethod.pyautogui, 0)], current := Option.some 0 }

/-- C4 counterexample: switching to the unregistered selenium method does NOT
propagate `StrategyNotAvailableError` to the caller — the call returns the
boolean False without an exception (the internal raise is caught by the
method's own blanket handler).  The previously active backend is indeed left
untouched: the state is unchanged and no cleanup call is made. -/
theorem C4_counterexample :
    switch_strategy stEx behOk AutomationMethod.selenium = (Except.ok false, stEx, []) := rfl

/-- C4 (amended): switching to an unregistered method returns False to the
caller (the internally raised `StrategyNotAvailableError` is swallowed by the
method's own exception handler, so nothing propagates), and the previously
active backend is left untouched: state unchanged, no events, no cleanup. -/
theorem C4_amended (st : ServiceState) (beh : Nat → StrategyBehavior)
    (method : AutomationMethod) (h : findStrategy st.registry method = Option.none) :
    switch_strategy st beh method = (Except.ok false, st, []) := by
  simp [switch_strategy, h]

/-- C4 witness: the amended statement at the concrete one-strategy state. -/
theorem C4_amended_witness :
    findStrategy stEx.registry AutomationMethod.selenium = Option.none ∧
    switch_strategy stEx behOk AutomationMethod.selenium = (Except.ok false, stEx, []) :=
  ⟨rfl, C4_amended stEx behOk AutomationMethod.selenium rfl⟩

/-- C5: switching to a registered method while a backend is active makes the
cleanup call on the prior active backend first (it is the head of the event
trace), makes no other cleanup call, and any initialisation of the requested
backend happens after it — in every behaviour case, including when the new
backend's `initialize` returns False or raises. -/
theorem C5_cleanup_before_init (st : ServiceState) (beh : Nat → StrategyBehavior)
    (method : AutomationMethod) (b cur : Nat)
    (hm : findStrategy st.registry method = Option.some b)
    (hcur : st.current = Option.some cur) :
    (switch_strategy st beh method).2.2.head? = Option.some (Event.cleanupCall cur) ∧
    ((switch_strategy st beh method).2.2.tail.all (fun e => !(Event.isCleanup e)) = true) ∧
    (switch_strategy st beh method).2.2.countP (fun e => Event.isCleanup e) = 1 := by
  cases hcl : (beh cur).cleanupB with
  | raised e =>
      refine ⟨?_, ?_, ?_⟩ <;>
        simp [switch_strategy, hm, hcur, hcl, Event.isCleanup, List.countP_cons]
  | ok =>
      cases hin : (beh b).initB <;>
        refine ⟨?_, ?_, ?_⟩ <;>
        simp [switch_strategy, hm, hcur, hcl, hin, Event.isCleanup, List.countP_cons]

/-- a strategy script where backend 1's initialisation raises, backend 0 works. -/
def behInitRaises : Nat → StrategyBehavior :=
  fun n =>
    if n = 1 then
      { initB := InitBehavior.raised (PyError.other ("init boom")), cleanupB := CleanupBehavior.ok }
    else { initB := InitBehavior.ok, cleanupB := CleanupBehavior.ok }

/-- a service state with both methods registered and pyautogui (id 0) active. -/
def stTwo : ServiceState :=
  { registry := [(AutomationMethod.pyautogui, 0), (AutomationMethod.selenium, 1)],
    current := Option.some 0 }

/-- C5 witness: the statement at a concrete state where the requested
backend's initialisation raises. -/
theorem C5_cleanup_before_init_witness :
    findStrategy stTwo.registry AutomationMethod.selenium = Option.some 1 ∧
    stTwo.current = Option.some 0 ∧
    ((switch_strategy stTwo behInitRaises AutomationMethod.selenium).2.2.head? =
      Option.some (Event.cleanupCall 0) ∧
    ((switch_strategy stTwo behInitRaises AutomationMethod.selenium).2.2.tail.all
      (fun e => !(Event.isCleanup e)) = true) ∧
    (switch_strategy stTwo behInitRaises AutomationMethod.selenium).2.2.countP
      (fun e => Event.isCleanup e) = 1) :=
  ⟨rfl, rfl, C5_cleanup_before_init stTwo behInitRaises AutomationMethod.selenium 1 0 rfl rfl⟩

/-- the Python `TypeError` produced when `_initialize_strategies` executes
`raise StrategyNotAvailableError("No automation strategies available")`:
`StrategyNotAvailableError.__init__` requires two positional arguments
(`strategy_name`, `reason`), so constructing the exception itself raises. -/
def strategiesEmptyTypeError : PyError :=
  PyError.typeError
    ("StrategyNotAvailableError.__init__() missing 1 required positional argument: " ++
      sq ++ "reason" ++ sq)

/-- services/profile_service.py `_initialize_strategies`, called from the
constructor: each strategy is registered iff its `is_available()` returns True
(pyautogui first, then selenium); with an empty registry the code attempts to
raise `StrategyNotAvailableError` with one argument, which raises `TypeError`
instead; the surrounding handler logs and re-raises. -/
def initStrategies (pyautogui_available selenium_available : Bool) :
    Except PyError (List (AutomationMethod × Nat)) :=
  let strategies :=
    (if pyautogui_available then [(AutomationMethod.pyautogui, 0)] else []) ++
    (if selenium_available then [(AutomationMethod.selenium, 1)] else [])
  if strategies.isEmpty then Except.error strategiesEmptyTypeError
  else Except.ok strategies

/-- C8: with zero available strategies the constructor does raise before
`start()` is reachable, but the exception is a `TypeError` from the
mis-arity call of `StrategyNotAvailableError.__init__`, not a
`StrategyNotAvailableError`. -/
theorem C8_constructor_raises :
    initStrategies false false = Except.error strategiesEmptyTypeError ∧
    (∀ n r, strategiesEmptyTypeError ≠ PyError.strategyNotAvailable n r) ∧
    (∀ py se, py = true ∨ se = true → exceptOk (initStrategies py se) = true) := by
  refine ⟨rfl, ?_, ?_⟩
  · intro n r h
    exact PyError.noConfusion h
  · intro py se h
    cases py with
    | false =>
        cases se with
        | false => simp at h
        | true => rfl
    | true =>
        cases se with
        | false => rfl
        | true => rfl

/-- Python `create_result.profile_id or name`: None and the empty string fall
back to `name`. -/
def orName (pid : Option String) (name : String) : String :=
  match pid with
  | Option.none => name
  | Option.some s => if s = "" then name else s

/-- services/profile_service.py `create_and_open_profile`, with the results of
the two convenience operations it composes (`self.create_profile`,
`self.open_profile` — which never raise, see `C10_convenience_no_raise`) given
as values.  If create fails its failure response is returned as-is and open is
never called; otherwise after the fixed settle sleep the profile is opened
under `create_result.profile_id or name`; an open failure yields a fresh error
response embedding the open error; no delete call exists on any path. -/
def create_and_open_profile (createRes : ProfileResponse) (openRes : String → ProfileResponse)
    (name : String) : ProfileResponse × List Event :=
  if !createRes.success then (createRes, [Event.createCall name])
  else
    let pid := orName createRes.profile_id name
    let openR := openRes pid
    if !openR.success then
      (ProfileResponse.error_response
        ("Profile created successfully but failed to open: " ++ pyStrOpt openR.error),
       [Event.createCall name, Event.settleSleep, Event.openCall pid])
    else
      (ProfileResponse.success_response pid
        ("Profile " ++ sq ++ name ++ sq ++ " created and opened successfully"),
       [Event.createCall name, Event.settleSleep, Event.openCall pid])

/-- C6: if the create step fails, no open call happens and the composite result
is exactly the create failure; if create succeeds and open fails, the composite
result is a failure response embedding the open error, and no delete call is
made on any path (the created profile is kept). -/
theorem C6_create_and_open (createRes : ProfileResponse) (openRes : String → ProfileResponse)
    (name : String) :
    (createRes.success = false →
      create_and_open_profile createRes openRes name = (createRes, [Event.createCall name])) ∧
    (createRes.success = true →
      (openRes (orName createRes.profile_id name)).success = false →
      (create_and_open_profile createRes openRes name).1 =
        ProfileResponse.error_response
          ("Profile created successfully but failed to open: " ++
            pyStrOpt (openRes (orName createRes.profile_id name)).error)) ∧
    ((create_and_open_profile createRes openRes name).2.all
      (fun e => !(Event.isDelete e)) = true) := by
  refine ⟨?_, ?_, ?_⟩
  · intro h
    simp [create_and_open_profile, h]
  · intro h ho
    simp [create_and_open_profile, h, ho]
  · cases h : createRes.success with
    | false => simp [create_and_open_profile, h, Event.isDelete]
    | true =>
        cases ho : (openRes (orName createRes.profile_id name)).success with
        | false => simp [create_and_open_profile, h, ho, Event.isDelete]
        | true => simp [create_and_open_profile, h, ho, Event.isDelete]

/-- a failing response used by the witnesses. -/
def respFail : ProfileResponse := ProfileResponse.error_response ("could not open")

/-- C6 witness: the statement applied where create succeeds and open fails. -/
theorem C6_create_and_open_witness :
    respOk.success = true ∧ respFail.success = false ∧
    (create_and_open_profile respOk (fun _ => respFail) ("test")).1 =
      ProfileResponse.error_response
        ("Profile created successfully but failed to open: " ++
          pyStrOpt ((fun (_ : String) => respFail) (orName respOk.profile_id ("test"))).error) :=
  ⟨rfl, rfl,
    (C6_create_and_open respOk (fun _ => respFail) ("test")).2.1 rfl rfl⟩

/-- One entry of the list handed to `batch_create_profiles`: either a config
dict on which the call `self.create_profile(**config_dict)` proceeds and
returns a response (that call never raises, see `C10_convenience_no_raise`),
or a malformed dict for which invoking `create_profile` raises `TypeError`
(missing `name`, unexpected keyword) with the given message. -/
inductive BatchEntry where
  | wellFormed (resp : ProfileResponse)
  | malformed (errMsg : String)

/-- the response `batch_create_profiles` records for the `idx`-th (1-based)
entry: the create response itself, or the per-item handler's error response. -/
def batchEntryResponse (idx : Nat) : BatchEntry → ProfileResponse
  | BatchEntry.wellFormed r => r
  | BatchEntry.malformed m =>
      ProfileResponse.error_response ("Failed to create profile " ++ toString idx ++ ": " ++ m)

/-- services/profile_service.py `batch_create_profiles` loop: each entry is
processed inside its own try/except, its response appended, and a pause slept
between non-final items (`i < len(profile_configs)`). -/
def batchGo (total : Nat) : Nat → List BatchEntry → List ProfileResponse × List Event
  | _, [] => ([], [])
  | i, entry :: rest =>
    let r := batchEntryResponse i entry
    let evs := if i < total then [Event.pauseSleep] else []
    let rec2 := batchGo total (i + 1) rest
    (r :: rec2.1, evs ++ rec2.2)

/-- services/profile_service.py `batch_create_profiles`. -/
def batch_create_profiles (entries : List BatchEntry) :
    List ProfileResponse × List Event :=
  batchGo entries.length 1 entries

theorem batchGo_length (total : Nat) :
    ∀ entries start, ((batchGo total start entries).1).length = entries.length := by
  intro entries
  induction entries with
  | nil => intro start; rfl
  | cons e rest ih =>
      intro start
      simp [batchGo, ih (start + 1)]

theorem batchGo_get (total : Nat) :
    ∀ entries start i,
      ((batchGo total start entries).1).get? i =
        (entries.get? i).map (fun e => batchEntryResponse (start + i) e) := by
  intro entries
  induction entries with
  | nil => intro start i; cases i <;> rfl
  | cons e rest ih =>
      intro start i
      cases i with
      | zero => simp [batchGo]
      | succ n =>
          have h : start + (n + 1) = start + 1 + n := by omega
          simp [batchGo, h]
          simpa using ih (start + 1) n

/-- C7: `batch_create_profiles` returns exactly one response per input entry,
in input order, and the response at each position is determined by that entry
alone — the create response for a well-formed entry, a failure response naming
the 1-based position for a malformed one — so a malformed entry never raises
and never affects any other entry's response. -/
theorem C7_batch_create (entries : List BatchEntry) :
    ((batch_create_profiles entries).1).length = entries.length ∧
    (∀ i, ((batch_create_profiles entries).1).get? i =
      (entries.get? i).map (fun e => batchEntryResponse (i + 1) e)) ∧
    (∀ n m, (batchEntryResponse n (BatchEntry.malformed m)).success = false) := by
  refine ⟨batchGo_length entries.length entries 1, ?_, ?_⟩
  · intro i
    have h := batchGo_get entries.length entries 1 i
    have h2 : 1 + i = i + 1 := by omega
    rw [h2] at h
    exact h
  · intro n m
    rfl

/-- services/profile_service.py `open_profile`: runs the retry wrapper inside a
try and converts any raised exception (notably `RetryExhaustedError`) into
`ProfileResponse.error_response(str(e))`. -/
def open_profile (cfg : RetryConfig) (active : Bool) (env : BackendBehavior)
    (profile_id : String) : ProfileResponse × List Event :=
  let out := open_profile_with_retry cfg active env profile_id
  match out.1 with
  | Except.ok r => (r, out.2)
  | Except.error e => (ProfileResponse.error_response (PyError.str e), out.2)

/-- services/profile_service.py `close_profile`: same conversion around the
close retry wrapper. -/
def close_profile (cfg : RetryConfig) (active : Bool) (env : BackendBehavior)
    (profile_id : String) : ProfileResponse × List Event :=
  let out := close_profile_with_retry cfg active env profile_id
  match out.1 with
  | Except.ok r => (r, out.2)
  | Except.error e => (ProfileResponse.error_response (PyError.str e), out.2)

/-- services/profile_service.py `create_profile(name, **kwargs)`: constructs
the `ProfileConfig` (a pydantic validation error is caught by the same
handler and converted to an error response), re-checks the stripped name
(unreachable after validation, kept as in the source), then runs the retry
wrapper with the same conversion of raised exceptions. -/
def create_profile (cfg : RetryConfig) (active : Bool) (env : BackendBehavior)
    (name : String) (bs : BrowserSettings) (ps : ProxySettings) (notes : Option String) :
    ProfileResponse × List Event :=
  match mkProfileConfig name bs ps notes with
  | Except.error msg => (ProfileResponse.error_response msg, [])
  | Except.ok config =>
    if (stripChars config.name.data).isEmpty then
      (ProfileResponse.error_response ("Profile name cannot be empty"), [])
    else
      let out := create_profile_with_retry cfg active env config
      match out.1 with
      | Except.ok r => (r, out.2)
      | Except.error e => (ProfileResponse.error_response (PyError.str e), out.2)

/-- C10: the convenience operations always return a `ProfileResponse` (their
result type carries no exception) — when the underlying retry wrapper raises,
the exception is converted into a failure response whose error field is the
exception's message; when it returns a response, that response is passed
through unchanged; a create-side validation error likewise becomes a failure
response. -/
theorem C10_convenience_no_raise (cfg : RetryConfig) (active : Bool) (env : BackendBehavior)
    (name : String) (bs : BrowserSettings) (ps : ProxySettings) (notes : Option String)
    (profile_id : String) :
    (∀ e, (open_profile_with_retry cfg active env profile_id).1 = Except.error e →
      (open_profile cfg active env profile_id).1 = ProfileResponse.error_response (PyError.str e) ∧
      ((open_profile cfg active env profile_id).1).success = false ∧
      ((open_profile cfg active env profile_id).1).error = Option.some (PyError.str e)) ∧
    (∀ r, (open_profile_with_retry cfg active env profile_id).1 = Except.ok r →
      (open_profile cfg active env profile_id).1 = r) ∧
    (∀ e, (close_profile_with_retry cfg active env profile_id).1 = Except.error e →
      (close_profile cfg active env profile_id).1 =
        ProfileResponse.error_response (PyError.str e)) ∧
    (∀ r, (close_profile_with_retry cfg active env profile_id).1 = Except.ok r →
      (close_profile cfg active env profile_id).1 = r) ∧
    (∀ msg, mkProfileConfig name bs ps notes = Except.error msg →
      (create_profile cfg active env name bs ps notes).1 =
        ProfileResponse.error_response msg) ∧
    (∀ config e, mkProfileConfig name bs ps notes = Except.ok config →
      (stripChars config.name.data).isEmpty = false →
      (create_profile_with_retry cfg active env config).1 = Except.error e →
      (create_profile cfg active env name bs ps notes).1 =
        ProfileResponse.error_response (PyError.str e)) ∧
    (∀ config r, mkProfileConfig name bs ps notes = Except.ok config →
      (stripChars config.name.data).isEmpty = false →
      (create_profile_with_retry cfg active env config).1 = Except.ok r →
      (create_profile cfg active env name bs ps notes).1 = r) := by
  refine ⟨?_, ?_, ?_, ?_, ?_, ?_, ?_⟩
  · intro e h
    refine ⟨?_, ?_, ?_⟩ <;> simp [open_profile, h, ProfileResponse.error_response]
  · intro r h
    simp [open_profile, h]
  · intro e h
    simp [close_profile, h]
  · intro r h
    simp [close_profile, h]
  · intro msg h
    simp [create_profile, h]
  · intro config e h hn hr
    simp [create_profile, h, hn, hr]
  · intro config r h hn hr
    simp [create_profile, h, hn, hr]

/-- the exception the open retry wrapper raises for the concrete always-failing
backend of the witnesses. -/
def retryExErr : PyError :=
  PyError.retryExhausted ("open_profile_p1") 2 (Option.some (PyError.other ("boom")))

/-- C10 witness: at the concrete always-failing backend, the retry wrapper
raises and `open_profile` converts that exception into a failure response
carrying `str(e)`. -/
theorem C10_convenience_no_raise_witness :
    (open_profile_with_retry cfgEx true envFail ("p1")).1 = Except.error retryExErr ∧
    (open_profile cfgEx true envFail ("p1")).1 =
      ProfileResponse.error_response (PyError.str retryExErr) :=
  ⟨rfl,
    ((C10_convenience_no_raise cfgEx true envFail ("t") {} {} Option.none ("p1")).1
      retryExErr rfl).1⟩

end AdsAuto
